import Mathlib

/-!
Verification of the hamster-lib / nark sqlalchemy storage layer.

We shallowly embed the sqlalchemy-backed entity managers of the repository
(`hamster_lib/backends/sqlalchemy/managers/activity.py`,
`nark/backends/sqlalchemy/managers/__init__.py`,
`nark/backends/sqlalchemy/managers/category.py`,
`hamster_lib/backends/sqlalchemy/objects.py`) as pure functions over an
explicit `Store` state.  Python exceptions become `Except PyError`
results; a raised exception aborts the transaction, so an `Except.error`
result carries no modified store (the source validates before committing,
and the session rolls back uncommitted work on failure).

Machine integers do not overflow in the modelled code paths; primary keys
are `Nat` (sqlite rowids), timestamps are `Int` (the code compares
formatted datetime strings, which orders exactly like the underlying
time values).

Python truthiness of an optional integer primary key (`if activity.pk:`)
is `pkTruthy`: `None` and `0` are falsy.
-/

/-- Python exception kinds raised by the modelled code. -/
inductive PyError
  /-- `ValueError` -/
  | valueError
  /-- `KeyError` -/
  | keyError
  /-- `AttributeError` -/
  | attributeError
  /-- `AssertionError` (a failing `assert` statement) -/
  | assertionError
  /-- sqlalchemy `MultipleResultsFound` escaping from `query.one()` -/
  | multipleResults
  deriving Repr, DecidableEq

/-- Row of the `categories` table.  The nark `AlchemyCategory` carries
`deleted`/`hidden` flags (its constructor in
`nark/backends/sqlalchemy/managers/category.py` passes them); the
hamster_lib table only uses `pk` and `name` and leaves them `false`. -/
structure CategoryRow where
  pk : Nat
  name : String
  deleted : Bool
  hidden : Bool
  deriving Repr, DecidableEq

/-- Row of the `activities` table
(`hamster_lib/backends/sqlalchemy/objects.py`): id, name, category_id
foreign key (nullable), deleted flag.  `UniqueConstraint('name',
'category_id')` is enforced at commit time by the embedding. -/
structure ActivityRow where
  pk : Nat
  name : String
  categoryId : Option Nat
  deleted : Bool
  deriving Repr, DecidableEq

/-- Row of the `facts` table: id, activity_id, start_time, nullable
end_time, description. -/
structure FactRow where
  pk : Nat
  activityId : Nat
  start : Int
  endTime : Option Int
  description : String
  deriving Repr, DecidableEq

/-- The database state: the three tables the claims touch. -/
structure Store where
  categories : List CategoryRow
  activities : List ActivityRow
  facts : List FactRow
  deriving Repr, DecidableEq

/-- Domain `Category` value object (`as_hamster` result).  The items
class is not under src/; modelled from the spec: `{pk, name}` plus the
`deleted`/`hidden` flags the nark manager code reads and writes. -/
structure Category where
  pk : Option Nat
  name : String
  deleted : Bool
  hidden : Bool
  deriving Repr, DecidableEq

/-- Domain `Activity` value object: `{pk, name, category, deleted}`. -/
structure Activity where
  pk : Option Nat
  name : String
  category : Option Category
  deleted : Bool
  deriving Repr, DecidableEq

/-- Modelled from the spec: `equal_fields` compares two entities on
every field except `pk` (spec section 6; the items classes are not under
src/). -/
def Category.equalFields (a b : Category) : Bool :=
  a.name == b.name && a.deleted == b.deleted && a.hidden == b.hidden

/-- Python truthiness of an optional integer pk: `None` and `0` are
falsy, every other integer is truthy. -/
def pkTruthy : Option Nat → Bool
  | none => false
  | some n => !(n == 0)

/-- Look up a category row by primary key (`session.query(...).get(pk)`). -/
def findCategory (st : Store) (pk : Nat) : Option CategoryRow :=
  st.categories.find? (fun r => r.pk == pk)

/-- Look up an activity row by primary key. -/
def findActivity (st : Store) (pk : Nat) : Option ActivityRow :=
  st.activities.find? (fun r => r.pk == pk)

/-- Next auto-increment id for the categories table. -/
def freshCategoryPk (st : Store) : Nat :=
  (st.categories.foldr (fun r m => max r.pk m) 0) + 1

/-- Next auto-increment id for the activities table. -/
def freshActivityPk (st : Store) : Nat :=
  (st.activities.foldr (fun r m => max r.pk m) 0) + 1

/-- Sort direction produced by `sqlalchemy.asc` / `sqlalchemy.desc`. -/
inductive SortDir
  | asc
  | desc
  deriving Repr, DecidableEq

/-- Columns an ORDER BY term of the modelled queries can target. -/
inductive OrderCol
  /-- `AlchemyActivity.name` -/
  | activityName
  /-- `AlchemyCategory.name` -/
  | categoryName
  /-- `AlchemyTag.name` -/
  | tagName
  /-- `AlchemyFact.start` -/
  | factStart
  /-- the `count(...)` aggregate column (`'uses'`) -/
  | usageCount
  /-- the `sum(julianday(end) - julianday(start))` aggregate (`'span'`) -/
  | timeSum
  deriving Repr, DecidableEq

/-- A query's accumulated ORDER BY terms: each `query.order_by(dir(col))`
call appends one `(col, dir)` pair. -/
abbrev OrderTerms := List (OrderCol × SortDir)

/-- `query_sort_order_at_index` from
`nark/backends/sqlalchemy/managers/__init__.py`: descending when the
entry at `idx` equals `'desc'`; an `IndexError` (index past the end)
falls back to ascending; any other string compares unequal to `'desc'`
and also yields ascending. -/
def query_sort_order_at_index (sortOrders : List String) (idx : Nat) : SortDir :=
  match sortOrders.get? idx with
  | some s => if s == "desc" then SortDir.desc else SortDir.asc
  | none => SortDir.asc

/-- `BaseAlchemyManager._get_all_order_by_col_common`: resolve `sortCol`
to a target column (`default` names the manager's natural column for
`'name'`/empty input); the aggregate targets exist only when the query
carries the corresponding aggregate columns.  An aggregate column
requested while neither aggregate is available, or an unresolvable
column, is logged (second component `true`) and the query is returned
unchanged; otherwise one ORDER BY term is appended. -/
def get_all_order_by_col_common (q : OrderTerms) (sortCol : String)
    (dir : SortDir) (dflt : String) (hasCount hasTime : Bool) :
    OrderTerms × Bool :=
  let target : Option OrderCol :=
    if sortCol == "start" then some OrderCol.factStart
    else if sortCol == "usage" then
      (if hasCount then some OrderCol.usageCount else none)
    else if sortCol == "time" then
      (if hasTime then some OrderCol.timeSum else none)
    else if sortCol == "activity"
        || (dflt == "activity" && (sortCol == "name" || sortCol == "")) then
      some OrderCol.activityName
    else if sortCol == "category"
        || (dflt == "category" && (sortCol == "name" || sortCol == "")) then
      some OrderCol.categoryName
    else if sortCol == "tag"
        || (dflt == "tag" && (sortCol == "name" || sortCol == "")) then
      some OrderCol.tagName
    else none
  let checkAggs : Bool :=
    sortCol == "start" || sortCol == "usage" || sortCol == "time"
  match target with
  | some t =>
      if checkAggs && !hasCount && !hasTime then (q, true)
      else (q ++ [(t, dir)], false)
  | none => (q, true)

/-- `ActivityManager._get_all_order_by` from
`hamster_lib/backends/sqlalchemy/managers/activity.py`: dispatch on
`sort_col` with `assert` statements guarding the usage-dependent columns
and the recognized-name fallback; a failing `assert` raises
`AssertionError`.  An empty `sort_order` string is falsy, flipping the
`'start'`/`'usage'` direction to descending. -/
def activity_get_all_order_by (q : OrderTerms) (sortCol sortOrder : String)
    (includeUsage hasCountCol : Bool) : Except PyError OrderTerms :=
  let dir := if sortOrder == "desc" then SortDir.desc else SortDir.asc
  if sortCol == "category" then
    Except.ok (q ++ [(OrderCol.categoryName, dir), (OrderCol.activityName, dir)])
  else if sortCol == "start" then
    if !includeUsage then Except.error PyError.assertionError
    else
      let dir2 := if sortOrder == "" then SortDir.desc else dir
      Except.ok (q ++ [(OrderCol.factStart, dir2)])
  else if sortCol == "usage" then
    if !(includeUsage && hasCountCol) then Except.error PyError.assertionError
    else
      let dir2 := if sortOrder == "" then SortDir.desc else dir
      Except.ok (q ++ [(OrderCol.usageCount, dir2)])
  else if sortCol == "" || sortCol == "name" || sortCol == "activity"
      || sortCol == "tag" || sortCol == "fact" then
    Except.ok (q ++ [(OrderCol.activityName, dir), (OrderCol.categoryName, dir)])
  else Except.error PyError.assertionError

/-- The ordering step of `ActivityManager.get_all`: an empty `sort_col`
defaults to `'name'`, and `get_all` always calls `_get_all` with
`include_usage=False`, so `_get_all_order_by` runs with
`include_usage=False` and `count_col=None`. -/
def activity_get_all_ordering (sortCol sortOrder : String) :
    Except PyError OrderTerms :=
  let sc := if sortCol == "" then "name" else sortCol
  activity_get_all_order_by [] sc sortOrder false false

/-- The `_get_partial_overlaps` branch of
`BaseAlchemyManager.get_all_filter_partial`
(`nark/backends/sqlalchemy/managers/__init__.py`): keep a fact when its
start, or its end, falls on the given side(s) of the bounds.  A SQL
comparison against a NULL `end_time` is not satisfied, so an open-ended
fact can only match through its start. -/
def get_partwise_overlaps (since until_ : Option Int) (f : FactRow) : Bool :=
  match since, until_ with
  | some s, none =>
      decide (s ≤ f.start)
        || (match f.endTime with
            | some e => decide (s ≤ e)
            | none => false)
  | none, some u =>
      decide (f.start ≤ u)
        || (match f.endTime with
            | some e => decide (e ≤ u)
            | none => false)
  | some s, some u =>
      (decide (s ≤ f.start) && decide (f.start ≤ u))
        || (match f.endTime with
            | some e => decide (s ≤ e) && decide (e ≤ u)
            | none => false)
  | none, none => true

/-- The `_get_complete_overlaps` branch of
`BaseAlchemyManager.get_all_filter_partial`: `since` bounds the start;
`until_`, when given, bounds the end (a NULL end never satisfies the
comparison); `elif endless:` — only when no `until_` is given — filters
to facts whose end is NULL. -/
def get_complete_overlaps (since until_ : Option Int) (endless : Bool)
    (f : FactRow) : Bool :=
  (match since with
   | some s => decide (s ≤ f.start)
   | none => true)
  && (match until_ with
      | some u =>
          (match f.endTime with
           | some e => decide (e ≤ u)
           | none => false)
      | none => if endless then f.endTime == none else true)

/-- `BaseAlchemyManager.get_all_filter_partial` as a row predicate: the
`partial` flag (argument `part` here) selects between the
partial-overlap and the complete-overlap filter; `endless` is consulted
only by the latter. -/
def get_all_filter_timeframe (since until_ : Option Int)
    (endless part : Bool) (f : FactRow) : Bool :=
  if part then get_partwise_overlaps since until_ f
  else get_complete_overlaps since until_ endless f

/-- Applying the timeframe filter to a fact query, i.e. the rows the
filtered query returns (in table order). -/
def facts_filter_timeframe (facts : List FactRow) (since until_ : Option Int)
    (endless part : Bool) : List FactRow :=
  facts.filter (get_all_filter_timeframe since until_ endless part)

/-- Written from the spec, for comparison with the code: the fact's
half-open interval `[start, end-or-now)` overlaps the window
`[since, until_]`; an open end is unbounded going forward, so only the
start bound matters for it. -/
def spec_overlaps_window (s u : Int) (f : FactRow) : Bool :=
  decide (f.start ≤ u)
    && (match f.endTime with
        | some e => decide (s ≤ e)
        | none => true)

/-- Written from the spec, for comparison with the code: the fact's
interval is fully contained within `[since, until_]`; an open-ended fact
is never fully contained. -/
def spec_contained_in_window (s u : Int) (f : FactRow) : Bool :=
  decide (s ≤ f.start)
    && (match f.endTime with
        | some e => decide (e ≤ u)
        | none => false)

/-- `AlchemyCategory.as_hamster`.  The nark variant is not under src/;
modelled from the spec: it returns the domain `Category` carrying the
stored fields (the hamster_lib variant returns pk and name, and the
hamster_lib rows keep `deleted`/`hidden` at `false`). -/
def category_as_hamster (r : CategoryRow) : Category :=
  { pk := some r.pk, name := r.name, deleted := r.deleted, hidden := r.hidden }

/-- Modelled from the spec: the domain `Activity` constructor (the items
class is not under src/) rejects a malformed (empty) name with
`ValueError`, as the source comment in `AlchemyActivity.as_hamster`
states (`else, let Activity() raise ValueError`). -/
def Activity.make (pk : Option Nat) (name : String) (cat : Option Category)
    (deleted : Bool) : Except PyError Activity :=
  if name == "" then Except.error PyError.valueError
  else Except.ok { pk := pk, name := name, category := cat, deleted := deleted }

/-- Resolve an activity row's category foreign key to the domain object
the ORM hands to `as_hamster` (`None` when the fk is NULL or dangling). -/
def resolve_category (st : Store) (row : ActivityRow) : Option Category :=
  match row.categoryId with
  | none => none
  | some cid =>
      match findCategory st cid with
      | none => none
      | some r => some (category_as_hamster r)

/-- `AlchemyActivity.as_hamster`
(`hamster_lib/backends/sqlalchemy/objects.py`): a nameless activity that
is soft-deleted gets the placeholder name `<unnamed>` (with a logged
warning); otherwise the stored name goes to the `Activity` constructor
unchanged. -/
def activity_as_hamster (st : Store) (row : ActivityRow) :
    Except PyError Activity :=
  let nm :=
    if row.name == "" then
      (if row.deleted then "<unnamed>" else row.name)
    else row.name
  Activity.make (some row.pk) nm (resolve_category st row) row.deleted

/-- `query.one()` on a filtered list: zero rows raise `NoResultFound`
(which the callers convert to `KeyError`), more than one raises
`MultipleResultsFound`, which no caller catches. -/
def query_one : List ActivityRow → Except PyError ActivityRow
  | [] => Except.error PyError.keyError
  | [a] => Except.ok a
  | _ => Except.error PyError.multipleResults

/-- `CategoryManager.get_by_name`
(`nark/backends/sqlalchemy/managers/category.py`), raw view: the single
row of that unique name, `KeyError` when absent (`NoResultFound` from
`query.one()`); a duplicated name would escape as
`MultipleResultsFound`. -/
def category_get_by_name (st : Store) (name : String) :
    Except PyError CategoryRow :=
  match st.categories.filter (fun r => r.name == name) with
  | [] => Except.error PyError.keyError
  | [r] => Except.ok r
  | _ => Except.error PyError.multipleResults

/-- `CategoryManager._add` with `raw=True`: the pk precondition (the
base-manager helper `adding_item_must_not_have_pk` is not under src/;
modelled from the spec: adding fails when `entity.pk` is already set),
then `add_and_commit` — a `UNIQUE` violation on the name surfaces the
`IntegrityError` as `ValueError`, otherwise the row is inserted with the
next rowid. -/
def category_add_raw (st : Store) (c : Category) :
    Except PyError (Store × CategoryRow) :=
  if c.pk ≠ none then Except.error PyError.valueError
  else if st.categories.any (fun r => r.name == c.name) then
    Except.error PyError.valueError
  else
    let row : CategoryRow :=
      { pk := freshCategoryPk st, name := c.name,
        deleted := c.deleted, hidden := c.hidden }
    Except.ok ({ st with categories := st.categories ++ [row] }, row)

/-- `CategoryManager._add` with the default `raw=False`: as
`category_add_raw`, then `as_hamster`. -/
def category_add (st : Store) (c : Category) :
    Except PyError (Store × Category) :=
  match category_add_raw st c with
  | Except.error e => Except.error e
  | Except.ok (st2, row) => Except.ok (st2, category_as_hamster row)

/-- `CategoryManager.get_or_create` with `raw=True` (as
`ActivityManager._update` calls it): look the name up, add on
`KeyError`.  Called with `None`, the lookup dereferences
`category.name` and raises `AttributeError`. -/
def category_get_or_create (st : Store) (c : Option Category) :
    Except PyError (Store × CategoryRow) :=
  match c with
  | none => Except.error PyError.attributeError
  | some cat =>
      match category_get_by_name st cat.name with
      | Except.ok row => Except.ok (st, row)
      | Except.error PyError.keyError => category_add_raw st cat
      | Except.error e => Except.error e

/-- `CategoryManager.get` with the default `deleted=None`:
`session.query(AlchemyCategory).get(pk)`, `KeyError` when absent, else
`as_hamster`. -/
def category_get (st : Store) (pk : Nat) : Except PyError Category :=
  match findCategory st pk with
  | none => Except.error PyError.keyError
  | some r => Except.ok (category_as_hamster r)

/-- `CategoryManager._update`: pk precondition (truthiness), row lookup,
rename, commit — the commit raises `IntegrityError` (surfaced as
`ValueError`) exactly when a *different* row already carries the new
name (the unique constraint ignores the row being updated). -/
def category_update (st : Store) (c : Category) :
    Except PyError (Store × Category) :=
  if !pkTruthy c.pk then Except.error PyError.valueError
  else
    match findCategory st (c.pk.getD 0) with
    | none => Except.error PyError.keyError
    | some row =>
        if st.categories.any (fun b => b.pk != row.pk && b.name == c.name) then
          Except.error PyError.valueError
        else
          let row2 := { row with name := c.name }
          let st2 :=
            { st with categories :=
                st.categories.map (fun b => if b.pk == row.pk then row2 else b) }
          Except.ok (st2, category_as_hamster row2)

/-- `CategoryManager.remove`: pk precondition (truthiness), row lookup,
then `session.delete` + commit, unconditionally.  Deleting the parent of
the `category` relationship makes sqlalchemy detach the children: every
referencing activity row has its `category_id` set to NULL. -/
def category_remove (st : Store) (c : Category) :
    Except PyError (Store × Unit) :=
  if !pkTruthy c.pk then Except.error PyError.valueError
  else
    match findCategory st (c.pk.getD 0) with
    | none => Except.error PyError.keyError
    | some row =>
        Except.ok
          ({ st with
              categories := st.categories.filter (fun r => r.pk != row.pk),
              activities := st.activities.map (fun a =>
                if a.categoryId == some row.pk then
                  { a with categoryId := none }
                else a) },
            ())

/-- `ActivityManager.get_by_composite`
(`hamster_lib/backends/sqlalchemy/managers/activity.py`): with a
category, resolve it by name first (`KeyError` when the category name is
absent); then `filter_by(name=..., category=...)` and `query.one()`,
converting `NoResultFound` to `KeyError`. -/
def activity_get_by_composite (st : Store) (name : String)
    (category : Option Category) : Except PyError ActivityRow :=
  match category with
  | some c =>
      match category_get_by_name st c.name with
      | Except.error e => Except.error e
      | Except.ok catRow =>
          query_one (st.activities.filter (fun a =>
            a.name == name && a.categoryId == some catRow.pk))
  | none =>
      query_one (st.activities.filter (fun a =>
        a.name == name && a.categoryId == none))

/-- `ActivityManager._add`: refuse a truthy pk; refuse when the
name/category combination is already present (the `get_by_composite`
probe succeeding raises `ValueError`, its `KeyError` is passed over, any
other exception propagates); attach the existing category by name or a
brand-new `AlchemyCategory` cascaded at commit; insert and return
`as_hamster`. -/
def activity_add (st : Store) (act : Activity) :
    Except PyError (Store × Activity) :=
  if pkTruthy act.pk then Except.error PyError.valueError
  else
    match activity_get_by_composite st act.name act.category with
    | Except.ok _ => Except.error PyError.valueError
    | Except.error PyError.keyError =>
        let insert := fun (st1 : Store) (catId : Option Nat) =>
          let row : ActivityRow :=
            { pk := freshActivityPk st1, name := act.name,
              categoryId := catId, deleted := act.deleted }
          let st2 := { st1 with activities := st1.activities ++ [row] }
          match activity_as_hamster st2 row with
          | Except.error e => Except.error e
          | Except.ok a => Except.ok (st2, a)
        match act.category with
        | some c =>
            (match category_get_by_name st c.name with
             | Except.ok catRow => insert st (some catRow.pk)
             | Except.error PyError.keyError =>
                 let fresh := freshCategoryPk st
                 insert
                   { st with categories :=
                       st.categories ++
                         [{ pk := fresh, name := c.name,
                            deleted := false, hidden := false }] }
                   (some fresh)
             | Except.error e => Except.error e)
        | none => insert st none
    | Except.error e => Except.error e

/-- `ActivityManager._update`: refuse a falsy pk; probe
`get_by_composite(activity.name, activity.category)` and raise
`ValueError` when it finds *any* row of that natural key — the probe
does not exclude the activity being updated; then fetch the row by pk
(`KeyError` when absent), get-or-create the category, write the fields
and commit (`IntegrityError` → `ValueError` when another row collides on
the unique constraint), returning `as_hamster`. -/
def activity_update (st : Store) (act : Activity) :
    Except PyError (Store × Activity) :=
  if !pkTruthy act.pk then Except.error PyError.valueError
  else
    match activity_get_by_composite st act.name act.category with
    | Except.ok _ => Except.error PyError.valueError
    | Except.error PyError.keyError =>
        (match findActivity st (act.pk.getD 0) with
         | none => Except.error PyError.keyError
         | some row =>
             match category_get_or_create st act.category with
             | Except.error e => Except.error e
             | Except.ok (st1, catRow) =>
                 if st1.activities.any (fun b =>
                     b.pk != row.pk && b.name == act.name
                       && b.categoryId == some catRow.pk) then
                   Except.error PyError.valueError
                 else
                   let row2 :=
                     { row with
                         name := act.name,
                         categoryId := some catRow.pk,
                         deleted := act.deleted }
                   let st2 :=
                     { st1 with activities := st1.activities.map (fun b =>
                         if b.pk == row.pk then row2 else b) }
                   match activity_as_hamster st2 row2 with
                   | Except.error e => Except.error e
                   | Except.ok a => Except.ok (st2, a))
    | Except.error e => Except.error e

/-- The fields of a session (Alchemy) activity row as `_update` reads
them when `remove` hands it the row object directly. -/
def activity_row_to_domain (st : Store) (row : ActivityRow) : Activity :=
  { pk := some row.pk, name := row.name,
    category := resolve_category st row, deleted := row.deleted }

/-- `ActivityManager.remove`: refuse a falsy pk; `KeyError` when the pk
resolves to no row.  With referencing facts, set `deleted = True` on the
session row and run `_update` on it (degrading to a soft-delete);
without, physically delete the row. -/
def activity_remove (st : Store) (act : Activity) :
    Except PyError (Store × Bool) :=
  if !pkTruthy act.pk then Except.error PyError.valueError
  else
    match findActivity st (act.pk.getD 0) with
    | none => Except.error PyError.keyError
    | some row =>
        if st.facts.any (fun f => f.activityId == row.pk) then
          let row2 := { row with deleted := true }
          let st1 :=
            { st with activities := st.activities.map (fun b =>
                if b.pk == row.pk then row2 else b) }
          match activity_update st1 (activity_row_to_domain st1 row2) with
          | Except.error e => Except.error e
          | Except.ok (st2, _) => Except.ok (st2, true)
        else
          Except.ok
            ({ st with activities :=
                st.activities.filter (fun b => b.pk != row.pk) },
              true)

/-- `ActivityManager.get`: `session.query(AlchemyActivity).get(pk)`,
`KeyError` when absent, else `as_hamster`. -/
def activity_get (st : Store) (pk : Nat) : Except PyError Activity :=
  match findActivity st pk with
  | none => Except.error PyError.keyError
  | some row => activity_as_hamster st row

/-! ## Helper lemmas -/

theorem mem_le_foldr_max_pk (r : CategoryRow) (l : List CategoryRow)
    (h : r ∈ l) : r.pk ≤ l.foldr (fun x m => max x.pk m) 0 := by
  induction l with
  | nil => cases h
  | cons x xs ih =>
      rcases List.mem_cons.1 h with h | h
      · subst h; exact le_max_left _ _
      · exact le_trans (ih h) (le_max_right _ _)

theorem findCategory_append_fresh (st : Store) (row : CategoryRow)
    (hrow : row.pk = freshCategoryPk st) :
    (List.find? (fun r => r.pk == freshCategoryPk st)
      (st.categories ++ [row])) = some row := by
  rw [List.find?_append]
  have hnone : st.categories.find? (fun r => r.pk == freshCategoryPk st) = none := by
    refine List.find?_eq_none.2 (fun x hx => ?_)
    have hle := mem_le_foldr_max_pk x st.categories hx
    simp only [beq_iff_eq]
    unfold freshCategoryPk
    omega
  rw [hnone]
  simp [List.find?, hrow]

/-! ## Claim theorems -/

/-- C9: the sort direction resolved for an index is descending exactly
when the `sort_orders` entry at that index is the string `'desc'`; any
other entry (e.g. `'DESC'`, `'descending'`) and any index past the end
of the list yield ascending order, without error. -/
theorem query_sort_order_at_index_desc_iff (sortOrders : List String) (idx : Nat) :
    (query_sort_order_at_index sortOrders idx = SortDir.desc
      ↔ sortOrders.get? idx = some "desc")
    ∧ (sortOrders.length ≤ idx →
        query_sort_order_at_index sortOrders idx = SortDir.asc) := by
  constructor
  · unfold query_sort_order_at_index
    rcases hq : sortOrders.get? idx with _ | s
    · simp
    · by_cases h : s = "desc"
      · subst h; simp
      · have hb : (s == "desc") = false := by
          simpa using h
        simp [hb, h]
  · intro hlen
    unfold query_sort_order_at_index
    rw [List.get?_eq_none.2 hlen]

/-- C10: materializing a stored activity whose name is empty does not
fail when the row is soft-deleted — `as_hamster` substitutes the
placeholder `<unnamed>` (logging a warning) and returns an Activity;
on a non-deleted row the empty name is not substituted and goes to the
`Activity` constructor unchanged (which, as modelled from the spec,
rejects it with `ValueError`). -/
theorem as_hamster_nameless_substitution (st : Store) (pk : Nat)
    (cid : Option Nat) :
    activity_as_hamster st ⟨pk, "", cid, true⟩
      = Except.ok
          ⟨some pk, "<unnamed>", resolve_category st ⟨pk, "", cid, true⟩, true⟩
    ∧ activity_as_hamster st ⟨pk, "", cid, false⟩
      = Activity.make (some pk) "" (resolve_category st ⟨pk, "", cid, false⟩) false
    ∧ activity_as_hamster st ⟨pk, "", cid, false⟩
      = Except.error PyError.valueError :=
  ⟨rfl, rfl, rfl⟩

/-- C2 counterexample: `ActivityManager.get_all` (which always runs its
ordering step with `include_usage=False` and no count column) raises
`AssertionError` for the context-invalid sort columns `'usage'` and
`'start'` and for an unrecognized column, instead of logging and
ignoring them. -/
theorem activity_sort_usage_asserts :
    activity_get_all_ordering "usage" "" = Except.error PyError.assertionError
    ∧ activity_get_all_ordering "start" "" = Except.error PyError.assertionError
    ∧ activity_get_all_ordering "bogus" "" = Except.error PyError.assertionError :=
  ⟨rfl, rfl, rfl⟩

/-- C2 amended: the nark common sort resolver
(`_get_all_order_by_col_common`) never raises — every call either logs
the unknown/context-invalid column and returns the query unchanged, or
appends exactly one ORDER BY term; in particular `'usage'` requested
without aggregate columns leaves the query untouched.  (hamster_lib's
`ActivityManager.get_all` ordering instead raises `AssertionError` on
such columns, per the counterexample.) -/
theorem order_by_col_common_never_raises (q : OrderTerms) (sortCol : String)
    (dir : SortDir) (dflt : String) (hasCount hasTime : Bool) :
    (get_all_order_by_col_common q sortCol dir dflt hasCount hasTime = (q, true)
      ∨ ∃ t, get_all_order_by_col_common q sortCol dir dflt hasCount hasTime
          = (q ++ [(t, dir)], false))
    ∧ get_all_order_by_col_common q "usage" dir dflt false false = (q, true) := by
  constructor
  · unfold get_all_order_by_col_common
    dsimp only
    split
    · split
      · exact Or.inl rfl
      · exact Or.inr ⟨_, rfl⟩
    · exact Or.inl rfl
  · rfl

/-- C1: evaluating `ActivityManager.remove` at the failing input.  On a
store holding one category, one activity and one fact referencing that
activity, `remove(activity)` raises `ValueError` instead of
soft-deleting: the soft-delete branch calls `_update`, whose
`get_by_composite` pre-check finds the activity's own (unchanged)
name/category combination and raises.  The zero-facts branch behaves as
the claim states: the row is physically deleted and a subsequent
`get(pk)` raises the not-found error. -/
theorem activity_remove_with_facts_raises :
    activity_remove
        ⟨[⟨1, "w", false, false⟩], [⟨1, "c", some 1, false⟩],
          [⟨1, 1, 0, some 3600, ""⟩]⟩
        ⟨some 1, "c", some ⟨some 1, "w", false, false⟩, false⟩
      = Except.error PyError.valueError
    ∧ activity_remove
        ⟨[⟨1, "w", false, false⟩], [⟨1, "c", some 1, false⟩], []⟩
        ⟨some 1, "c", some ⟨some 1, "w", false, false⟩, false⟩
      = Except.ok (⟨[⟨1, "w", false, false⟩], [], []⟩, true)
    ∧ activity_get ⟨[⟨1, "w", false, false⟩], [], []⟩ 1
      = Except.error PyError.keyError :=
  ⟨rfl, rfl, rfl⟩

/-- C5: evaluating the update paths at the failing input.  Re-saving an
activity under its own current natural key (only the `deleted` flag
changed) raises `ValueError` — `ActivityManager._update`'s
`get_by_composite` pre-check does not exclude the activity itself; the
nark `CategoryManager._update`, which has no such pre-check, succeeds
when a category keeps its own name. -/
theorem activity_update_same_key_raises :
    activity_update
        ⟨[⟨1, "w", false, false⟩], [⟨1, "c", some 1, false⟩],
          [⟨1, 1, 0, some 3600, ""⟩]⟩
        ⟨some 1, "c", some ⟨some 1, "w", false, false⟩, true⟩
      = Except.error PyError.valueError
    ∧ category_update
        ⟨[⟨1, "w", false, false⟩], [⟨1, "c", some 1, false⟩],
          [⟨1, 1, 0, some 3600, ""⟩]⟩
        ⟨some 1, "w", false, false⟩
      = Except.ok
          (⟨[⟨1, "w", false, false⟩], [⟨1, "c", some 1, false⟩],
             [⟨1, 1, 0, some 3600, ""⟩]⟩,
            ⟨some 1, "w", false, false⟩) :=
  ⟨rfl, rfl⟩

/-- C4 counterexample: a category referenced by an activity is
physically deleted by `CategoryManager.remove` — the row is gone and
`get(pk)` raises — contradicting the claim that a referenced category is
never erased.  (The referencing activity survives with its category
foreign key detached.) -/
theorem category_remove_referenced_deletes :
    category_remove ⟨[⟨1, "w", false, false⟩], [⟨1, "c", some 1, false⟩], []⟩
        ⟨some 1, "w", false, false⟩
      = Except.ok (⟨[], [⟨1, "c", none, false⟩], []⟩, ())
    ∧ category_get ⟨[], [⟨1, "c", none, false⟩], []⟩ 1
      = Except.error PyError.keyError :=
  ⟨rfl, rfl⟩

/-- C4 amended: `CategoryManager.remove` on any found category pk
physically deletes the row unconditionally — whether or not activities
reference it — leaving every activity row in place (with a detached
category where it referenced the removed one). -/
theorem category_remove_always_deletes (st : Store) (c : Category) (n : Nat)
    (hp : c.pk = some n) (hn : n ≠ 0) (row : CategoryRow)
    (hf : findCategory st n = some row) :
    ∃ st2, category_remove st c = Except.ok (st2, ())
      ∧ findCategory st2 n = none
      ∧ st2.activities.length = st.activities.length := by
  have hrow : row.pk = n := by
    have := List.find?_some hf
    simpa using this
  refine
    ⟨{ st with
        categories := st.categories.filter (fun r => r.pk != row.pk),
        activities := st.activities.map (fun a =>
          if a.categoryId == some row.pk then { a with categoryId := none }
          else a) },
      ?_, ?_, ?_⟩
  · unfold category_remove
    rw [hp]
    have ht : pkTruthy (some n) = true := by
      simp [pkTruthy, hn]
    rw [ht]
    simp only [Bool.not_true, Bool.false_eq_true, if_false, Option.getD_some]
    rw [hf]
  · unfold findCategory
    refine List.find?_eq_none.2 (fun x hx => ?_)
    have hmem := List.mem_filter.1 hx
    have : (x.pk != row.pk) = true := hmem.2
    simp only [bne_iff_ne, ne_eq] at this
    simp [beq_iff_eq, hrow ▸ this]
  · simp [List.length_map]

/-- C4 amended, witness at a concrete input. -/
theorem category_remove_always_deletes_witness :
    ∃ st2,
      category_remove ⟨[⟨1, "w", false, false⟩], [⟨1, "c", some 1, false⟩], []⟩
          ⟨some 1, "w", false, false⟩
        = Except.ok (st2, ())
      ∧ findCategory st2 1 = none
      ∧ st2.activities.length = 1 :=
  category_remove_always_deletes
    ⟨[⟨1, "w", false, false⟩], [⟨1, "c", some 1, false⟩], []⟩
    ⟨some 1, "w", false, false⟩ 1 rfl (by decide) ⟨1, "w", false, false⟩ rfl

/-- C8 counterexample: an activity whose pk is already set to `0` is not
rejected — `ActivityManager._add` tests Python truthiness
(`if activity.pk:`), `0` is falsy, and the entity is persisted as a
fresh row. -/
theorem activity_add_pk_zero_succeeds :
    activity_add ⟨[], [], []⟩ ⟨some 0, "a", none, false⟩
      = Except.ok
          (⟨[], [⟨1, "a", none, false⟩], []⟩, ⟨some 1, "a", none, false⟩) :=
  rfl

/-- C8 amended: `add` fails with the precondition `ValueError` before
any persistence side effect for every entity whose pk is *truthy*
(non-`None` and non-zero): `ActivityManager._add` checks truthiness, and
the nark category pk precondition (its base-manager helper is modelled
from the spec) rejects any set pk. -/
theorem add_with_truthy_pk_fails (st : Store) (a : Activity) (c : Category)
    (n m : Nat) (ha : a.pk = some n) (hn : n ≠ 0) (hc : c.pk = some m) :
    activity_add st a = Except.error PyError.valueError
    ∧ category_add st c = Except.error PyError.valueError := by
  constructor
  · unfold activity_add
    rw [ha]
    simp [pkTruthy, hn]
  · unfold category_add category_add_raw
    rw [hc]
    simp

/-- C8 amended, witness at concrete inputs. -/
theorem add_with_truthy_pk_fails_witness :
    activity_add ⟨[], [], []⟩ ⟨some 2, "a", none, false⟩
      = Except.error PyError.valueError
    ∧ category_add ⟨[], [], []⟩ ⟨some 2, "a", false, false⟩
      = Except.error PyError.valueError :=
  add_with_truthy_pk_fails ⟨[], [], []⟩ ⟨some 2, "a", none, false⟩
    ⟨some 2, "a", false, false⟩ 2 2 rfl (by decide) rfl

/-- C3 counterexample: the fact `[0, 10]` strictly contains the window
`[2, 3]` — it overlaps the window per the spec's notion — yet the
`partial=true` filter returns no rows: `_get_partial_overlaps` only
keeps facts whose start or end falls inside the window. -/
theorem filter_span_excludes_containing_fact :
    spec_overlaps_window 2 3 ⟨1, 1, 0, some 10, ""⟩ = true
    ∧ facts_filter_timeframe [⟨1, 1, 0, some 10, ""⟩]
        (some 2) (some 3) false true = [] :=
  ⟨rfl, rfl⟩

/-- C3 amended: with both bounds given, `partial=true` returns exactly
the rows whose start lies in `[since, until]` or whose (non-null) end
lies in `[since, until]` — a fact strictly containing the window is
excluded; `partial=false` returns exactly the rows fully contained in
the window (start after `since` and non-null end before `until`). -/
theorem filter_timeframe_exact_semantics (facts : List FactRow) (s u : Int)
    (endless : Bool) (f : FactRow) :
    (f ∈ facts_filter_timeframe facts (some s) (some u) endless true
      ↔ f ∈ facts
        ∧ ((s ≤ f.start ∧ f.start ≤ u)
            ∨ ∃ e, f.endTime = some e ∧ s ≤ e ∧ e ≤ u))
    ∧ (f ∈ facts_filter_timeframe facts (some s) (some u) endless false
      ↔ f ∈ facts ∧ spec_contained_in_window s u f = true) := by
  constructor
  · rw [facts_filter_timeframe, List.mem_filter]
    refine and_congr_right (fun _ => ?_)
    unfold get_all_filter_timeframe get_partwise_overlaps
    rcases hE : f.endTime with _ | e <;> simp [hE]
  · rw [facts_filter_timeframe, List.mem_filter]
    refine and_congr_right (fun _ => ?_)
    unfold get_all_filter_timeframe get_complete_overlaps
      spec_contained_in_window
    rcases hE : f.endTime with _ | e <;> simp [hE]

/-- C6 counterexample: with `partial=false`, no `since`/`until` and
`endless=true`, the closed fact `[1, 2]` — which satisfies every other
time filter — is dropped: only the open-ended fact is returned, so
`endless=true` restricts the result instead of additionally including
the open-ended fact. -/
theorem endless_excludes_closed_facts :
    facts_filter_timeframe [⟨1, 1, 1, some 2, ""⟩, ⟨2, 1, 3, none, ""⟩]
        none none true false
      = [⟨2, 1, 3, none, ""⟩] :=
  rfl

/-- C6 amended: in the `partial=false` branch with no `until` bound,
`endless=true` filters the facts down to exactly those with a NULL end
that also satisfy the `since` bound; when an `until` bound is given, and
in the `partial=true` branch, `endless` is ignored entirely. -/
theorem endless_restricts_to_open (since until_ : Option Int) (u : Int)
    (endless : Bool) (f : FactRow) :
    (get_complete_overlaps since none true f = true
      ↔ (since.getD f.start ≤ f.start ∧ f.endTime = none))
    ∧ get_complete_overlaps since (some u) endless f
        = get_complete_overlaps since (some u) false f
    ∧ get_all_filter_timeframe since until_ true true f
        = get_all_filter_timeframe since until_ false true f := by
  refine ⟨?_, rfl, rfl⟩
  unfold get_complete_overlaps
  rcases hS : since with _ | s <;>
    rcases hE : f.endTime with _ | e <;> simp [hE]

/-- C7: round-trip — adding an unkeyed category whose name is not yet
taken persists a fresh row, and `get` on the returned pk yields a
category `equal_fields` to the input (identical in every field but
`pk`). -/
theorem category_add_get_round_trip (st : Store) (c : Category)
    (hpk : c.pk = none) (hname : ∀ r ∈ st.categories, r.name ≠ c.name) :
    category_add st c
      = Except.ok
          ({ st with categories :=
              st.categories
                ++ [⟨freshCategoryPk st, c.name, c.deleted, c.hidden⟩] },
            ⟨some (freshCategoryPk st), c.name, c.deleted, c.hidden⟩)
    ∧ category_get
        { st with categories :=
            st.categories
              ++ [⟨freshCategoryPk st, c.name, c.deleted, c.hidden⟩] }
        (freshCategoryPk st)
      = Except.ok ⟨some (freshCategoryPk st), c.name, c.deleted, c.hidden⟩
    ∧ Category.equalFields
        ⟨some (freshCategoryPk st), c.name, c.deleted, c.hidden⟩ c = true := by
  have hany : st.categories.any (fun r => r.name == c.name) = false := by
    refine List.any_eq_false.2 (fun r hr => ?_)
    simpa using hname r hr
  refine ⟨?_, ?_, ?_⟩
  · unfold category_add category_add_raw
    rw [hpk, hany]
    simp [category_as_hamster]
  · unfold category_get findCategory
    simp only []
    rw [findCategory_append_fresh st ⟨freshCategoryPk st, c.name, c.deleted, c.hidden⟩ rfl]
    rfl
  · simp [Category.equalFields]

/-- C7 witness: the round trip at a concrete input — an empty store and
the unkeyed category named `w`. -/
theorem category_add_get_round_trip_witness :
    category_add ⟨[], [], []⟩ ⟨none, "w", false, false⟩
      = Except.ok
          (⟨[⟨1, "w", false, false⟩], [], []⟩, ⟨some 1, "w", false, false⟩)
    ∧ category_get ⟨[⟨1, "w", false, false⟩], [], []⟩ 1
      = Except.ok ⟨some 1, "w", false, false⟩
    ∧ Category.equalFields ⟨some 1, "w", false, false⟩
        ⟨none, "w", false, false⟩ = true :=
  category_add_get_round_trip ⟨[], [], []⟩ ⟨none, "w", false, false⟩ rfl
    (fun r hr => absurd hr (List.not_mem_nil r))

/-- C9 witness: the resolver at concrete inputs — entry `'desc'` gives
descending, the miscased `'DESC'` and an out-of-range index give
ascending. -/
theorem query_sort_order_at_index_desc_iff_witness :
    (query_sort_order_at_index ["desc", "DESC"] 0 = SortDir.desc
      ↔ (["desc", "DESC"] : List String).get? 0 = some "desc")
    ∧ ((["desc", "DESC"] : List String).length ≤ 5 →
        query_sort_order_at_index ["desc", "DESC"] 5 = SortDir.asc) :=
  ⟨(query_sort_order_at_index_desc_iff ["desc", "DESC"] 0).1,
    (query_sort_order_at_index_desc_iff ["desc", "DESC"] 5).2⟩
